import Mathlib

/-! Scenario driver `main` of `myfirst.cc`

A shallow embedding of the scenario-assembly program `src/myfirst.cc`.

`main` is a straight-line driver over the simulation library: it creates
nodes, installs devices, tunes one contention window, places the wireless
nodes, assigns addresses, installs the UDP sink and sources, populates the
routing tables and runs the simulation.  The embedding threads an explicit
`World` (the engine-owned objects plus the trace of library calls issued so
far) through the statements of `main`, in source order.

Conventions.
* `uint32_t` values are natural numbers; arithmetic on them is reduced
  modulo `2^32` where the source computes in `uint32_t`.
* `double` values (times in seconds, coordinates, the packet period) are
  modelled as exact rationals.
* Container indexing (`Get(i)`, `GetAddress(i)`) is fallible: an index
  outside the container makes `main` return `none`.
-/

namespace MyFirst

/-! ## Machine integers -/

/-- Signed 32-bit wrap-around (two's complement), used for the `int` loop counter. -/
def wrapInt32 (z : Int) : Int := (z + 2147483648) % 4294967296 - 2147483648

/-- Conversion of an `int` to `uint32_t` (reduction modulo `2^32`). -/
def toUInt32 (z : Int) : Nat := (z % 4294967296).toNat

/-- Multiplication in `uint32_t`. -/
def mulUInt32 (a b : Nat) : Nat := (a * b) % 4294967296

/-! ## Engine-owned entities -/

/-- A node is identified by its position in the engine's node list. -/
abbrev Node := Nat

/-- The four kinds of network device the scenario installs. -/
inductive DeviceKind where
  | pointToPoint
  | csma
  | wifiSta
  | wifiAp
deriving DecidableEq, Repr

/-- A network device: creation index, hosting node, kind. -/
structure NetDevice where
  ifIndex : Nat
  node : Node
  kind : DeviceKind
deriving DecidableEq, Repr

abbrev NodeContainer := List Node

abbrev NetDeviceContainer := List NetDevice

/-- An IPv4 address or mask as a 32-bit number. -/
abbrev Ipv4Address := Nat

/-- Dotted-quad notation `a.b.c.d`. -/
def ipv4 (a b c d : Nat) : Ipv4Address := ((a * 256 + b) * 256 + c) * 256 + d

/-- Interfaces with their addresses, in assignment order. -/
abbrev Ipv4InterfaceContainer := List (NetDevice × Ipv4Address)

/-- Handles of applications: positions in the engine's application list. -/
abbrev ApplicationContainer := List Nat

/-- The role of a wireless medium-access controller. -/
inductive MacType where
  | staWifiMac
  | apWifiMac
deriving DecidableEq, Repr

/-- A medium-access controller with the `MinCw` of its (non-QoS) `Txop`. -/
structure WifiMac where
  device : Nat
  type : MacType
  minCw : Nat
deriving DecidableEq, Repr

/-- The two kinds of application the scenario installs. -/
inductive AppKind where
  | udpServer (port : Nat)
  | udpClient (remoteAddress : Option Ipv4Address) (remotePort : Nat)
      (maxPackets : Option Nat) (interval : Option ℚ) (packetSize : Option Nat)
deriving DecidableEq, Repr

/-- An installed application with its lifecycle window. -/
structure Application where
  node : Node
  kind : AppKind
  start : Option ℚ
  stop : Option ℚ
deriving DecidableEq, Repr

/-! ## Trace of library calls -/

inductive LogComponent where
  | udpClient
  | udpServer
deriving DecidableEq, Repr

inductive LayoutType where
  | rowFirst
  | columnFirst
deriving DecidableEq, Repr

/-- Attributes of the UDP client helper that `main` sets. -/
inductive ClientAttribute where
  | maxPackets (n : Nat)
  | interval (seconds : ℚ)
  | packetSize (n : Nat)
deriving DecidableEq, Repr

/-- One library call issued by `main`, with the arguments that matter. -/
inductive Call where
  | logComponentEnable (c : LogComponent)
  | createNodes (first count : Nat)
  | p2pSetDeviceAttributeDataRate (bps : Nat)
  | p2pSetChannelAttributeDelay (microseconds : Nat)
  | p2pInstall (nodes : List Node)
  | csmaSetChannelAttributeDataRate (bps : Nat)
  | csmaSetChannelAttributeDelay (microseconds : Nat)
  | csmaInstall (nodes : List Node)
  | phySetChannel
  | wifiSetStandard
  | macSetType (t : MacType)
  | wifiInstall (t : MacType) (nodes : List Node)
  | setMinCw (macDevice : Nat) (cw : Nat)
  | setPositionAllocator
  | setMobilityModel
  | mobilityInstall (nodes : List Node)
  | stackInstall (nodes : List Node)
  | setBase (network mask : Ipv4Address)
  | assign (devices : List NetDevice)
  | udpServerInstall (node : Node) (port : Nat)
  | udpClientSetAttribute (a : ClientAttribute)
  | udpClientInstall (node : Node)
  | appsStart (apps : List Nat) (t : ℚ)
  | appsStop (apps : List Nat) (t : ℚ)
  | populateRoutingTables
  | simulatorStop (t : ℚ)
  | setPcapDataLinkType
  | p2pEnablePcapAll
  | phyEnablePcap (d : NetDevice)
  | csmaEnablePcap (d : NetDevice)
  | simulatorRun
  | simulatorDestroy
deriving DecidableEq, Repr

/-- The engine state built up during assembly. -/
structure World where
  nodeCount : Nat
  devices : List NetDevice
  macs : List WifiMac
  positions : List (Node × ℚ × ℚ)
  addresses : List (NetDevice × Ipv4Address)
  apps : List Application
  trace : List Call
deriving DecidableEq, Repr

/-- The state before `main` starts. -/
def World.empty : World := ⟨0, [], [], [], [], [], []⟩

/-- Record one call at the end of the trace. -/
def World.log (w : World) (c : Call) : World := { w with trace := w.trace ++ [c] }

/-! ## Library operations used by `main`

The helper classes of the simulation library are not part of `src/`; the
operations below state what each call contributes to the assembled scenario.
-/

/-- Modelled from the spec: `NodeContainer::Create` (the engine's
`createNodes(n)`), not in src/.  Creates `n` fresh nodes, numbered in creation
order, and appends them to the container. -/
def NodeContainer.Create (c : NodeContainer) (n : Nat) (w : World) : NodeContainer × World :=
  (c ++ List.range' w.nodeCount n,
    { w with nodeCount := w.nodeCount + n, trace := w.trace ++ [Call.createNodes w.nodeCount n] })

/-- Modelled from the spec: `NodeContainer::Add`, not in src/.  Appends an
existing node. -/
def NodeContainer.Add (c : NodeContainer) (n : Node) : NodeContainer := c ++ [n]

/-- Modelled from the spec: `NodeContainer::Get`, not in src/.  The `i`-th node
of the container; no node when `i` is out of range. -/
def NodeContainer.Get (nodes : NodeContainer) (i : Nat) : Option Node := nodes[i]?

/-- Modelled from the spec: `NetDeviceContainer::Get`, not in src/. -/
def NetDeviceContainer.Get (devs : NetDeviceContainer) (i : Nat) : Option NetDevice := devs[i]?

/-- Modelled from the spec: `Ipv4InterfaceContainer::GetAddress`, not in src/.
Address lookup by interface index. -/
def Ipv4InterfaceContainer.GetAddress (ifs : Ipv4InterfaceContainer) (i : Nat) :
    Option Ipv4Address :=
  (ifs[i]?).map Prod.snd

/-- One new device of the given kind on each node, in container order; the
devices are numbered from `first`. -/
def installOn (kind : DeviceKind) : List Node → Nat → List NetDevice
  | [], _ => []
  | n :: ns, first => ⟨first, n, kind⟩ :: installOn kind ns (first + 1)

/-- Modelled from the spec: `PointToPointHelper::Install` (`buildPointToPoint`),
not in src/.  Attaches one interface to each endpoint node. -/
def PointToPointHelper.Install (c : NodeContainer) (w : World) : NetDeviceContainer × World :=
  let devs := installOn DeviceKind.pointToPoint c w.devices.length
  (devs, { w with devices := w.devices ++ devs, trace := w.trace ++ [Call.p2pInstall c] })

/-- Modelled from the spec: `CsmaHelper::Install` (`buildSharedSegment`), not in
src/.  Attaches one interface to each node of the segment, in order. -/
def CsmaHelper.Install (c : NodeContainer) (w : World) : NetDeviceContainer × World :=
  let devs := installOn DeviceKind.csma c w.devices.length
  (devs, { w with devices := w.devices ++ devs, trace := w.trace ++ [Call.csmaInstall c] })

/-- The device kind that carries a MAC of the given type. -/
def MacType.deviceKind : MacType → DeviceKind
  | MacType.staWifiMac => DeviceKind.wifiSta
  | MacType.apWifiMac => DeviceKind.wifiAp

/-- Modelled from the spec: `WifiHelper::Install` (`buildCell`), not in src/.
Installs one wireless device on each node, each with its own medium-access
controller of the type last given to `mac.SetType`; a new controller starts
with the subsystem's default minimum contention window. -/
def WifiHelper.Install (mac : MacType) (defaultMinCw : Nat) (c : NodeContainer) (w : World) :
    NetDeviceContainer × World :=
  let devs := installOn mac.deviceKind c w.devices.length
  (devs, { w with
    devices := w.devices ++ devs
    macs := w.macs ++ devs.map (fun d => ⟨d.ifIndex, mac, defaultMinCw⟩)
    trace := w.trace ++ [Call.wifiInstall mac c] })

/-- Modelled from the spec: `DynamicCast<WifiNetDevice>`, not in src/.  Only a
wireless device has a medium-access controller. -/
def DynamicCastWifiNetDevice (d : NetDevice) : Option NetDevice :=
  if d.kind = DeviceKind.wifiSta ∨ d.kind = DeviceKind.wifiAp then some d else none

/-- Modelled from the spec: `WifiNetDevice::GetMac`, not in src/.  The
controller of a wireless device, named by the device's index. -/
def WifiNetDevice.GetMac (d : NetDevice) : Nat := d.ifIndex

/-- Modelled from the spec: reading the `Txop` attribute of a controller, not in
src/.  Without quality-of-service extensions a controller has exactly one
`Txop`, named like the controller; the controller has to exist. -/
def WifiMac.GetTxop (mac : Nat) (w : World) : Option Nat :=
  if w.macs.any (fun m => m.device == mac) then some mac else none

/-- Modelled from the spec: `Txop::SetMinCw`, not in src/.  Overrides the
minimum contention window of this one controller (no bounds check). -/
def Txop.SetMinCw (txop : Nat) (cw : Nat) (w : World) : World :=
  { w with
    macs := w.macs.map (fun m => if m.device = txop then { m with minCw := cw } else m)
    trace := w.trace ++ [Call.setMinCw txop cw] }

/-- Modelled from the spec: `Txop::GetMinCw`, not in src/. -/
def Txop.GetMinCw (txop : Nat) (w : World) : Option Nat :=
  (w.macs.find? (fun m => m.device == txop)).map WifiMac.minCw

/-- Modelled from the spec: `GridPositionAllocator`, not in src/.  The
allocator's attributes and the number of positions handed out so far. -/
structure GridPositionAllocator where
  minX : ℚ
  minY : ℚ
  deltaX : ℚ
  deltaY : ℚ
  gridWidth : Nat
  layoutType : LayoutType
  current : Nat
deriving DecidableEq, Repr

/-- Modelled from the spec: `GridPositionAllocator::GetNext`, not in src/.  The
next grid position in row-major (`RowFirst`) or column-major order. -/
def GridPositionAllocator.GetNext (g : GridPositionAllocator) :
    (ℚ × ℚ) × GridPositionAllocator :=
  let p : ℚ × ℚ :=
    match g.layoutType with
    | LayoutType.rowFirst =>
      (g.minX + g.deltaX * ((g.current % g.gridWidth : Nat) : ℚ),
        g.minY + g.deltaY * ((g.current / g.gridWidth : Nat) : ℚ))
    | LayoutType.columnFirst =>
      (g.minX + g.deltaX * ((g.current / g.gridWidth : Nat) : ℚ),
        g.minY + g.deltaY * ((g.current % g.gridWidth : Nat) : ℚ))
  (p, { g with current := g.current + 1 })

/-- Positions for the nodes of a container, one `GetNext` per node in order. -/
def placeNodes : List Node → GridPositionAllocator →
    List (Node × ℚ × ℚ) × GridPositionAllocator
  | [], g => ([], g)
  | n :: ns, g =>
    let r := g.GetNext
    let rest := placeNodes ns r.2
    ((n, r.1) :: rest.1, rest.2)

/-- Modelled from the spec: `MobilityHelper::Install` (`placeGrid`), not in
src/.  Gives each node of the container a fixed position drawn from the
helper's position allocator, which keeps counting across calls. -/
def MobilityHelper.Install (mobility : GridPositionAllocator) (c : NodeContainer) (w : World) :
    GridPositionAllocator × World :=
  let r := placeNodes c mobility
  (r.2, { w with positions := w.positions ++ r.1, trace := w.trace ++ [Call.mobilityInstall c] })

/-- Modelled from the spec: `InternetStackHelper::Install`, not in src/. -/
def InternetStackHelper.Install (c : NodeContainer) (w : World) : World :=
  w.log (Call.stackInstall c)

/-- Modelled from the spec: `Ipv4AddressHelper`, not in src/.  The current
network prefix, its mask and the next host number. -/
structure Ipv4AddressHelper where
  network : Ipv4Address
  mask : Ipv4Address
  address : Nat
deriving DecidableEq, Repr

/-- Modelled from the spec: `Ipv4AddressHelper::SetBase`, not in src/.  Selects
the range and resets the host counter to 1. -/
def Ipv4AddressHelper.SetBase (network mask : Ipv4Address) (w : World) :
    Ipv4AddressHelper × World :=
  (⟨network, mask, 1⟩, w.log (Call.setBase network mask))

/-- The next host numbers of the range, one per device in input order. -/
def assignFrom (network : Ipv4Address) : List NetDevice → Nat → Ipv4InterfaceContainer
  | [], _ => []
  | d :: ds, host => (d, network ||| host) :: assignFrom network ds (host + 1)

/-- Modelled from the spec: `Ipv4AddressHelper::Assign`, not in src/.  Assigns
each interface the next address in the range, in input order. -/
def Ipv4AddressHelper.Assign (address : Ipv4AddressHelper) (c : NetDeviceContainer) (w : World) :
    Ipv4InterfaceContainer × Ipv4AddressHelper × World :=
  let ifs := assignFrom address.network c address.address
  (ifs, { address with address := address.address + c.length },
    { w with addresses := w.addresses ++ ifs, trace := w.trace ++ [Call.assign c] })

/-- Modelled from the spec: `UdpServerHelper::Install` (`installSink`), not in
src/.  One sink application on the node, listening on the port. -/
def UdpServerHelper.Install (port : Nat) (node : Node) (w : World) :
    ApplicationContainer × World :=
  ([w.apps.length], { w with
    apps := w.apps ++ [⟨node, AppKind.udpServer port, none, none⟩]
    trace := w.trace ++ [Call.udpServerInstall node port] })

/-- Modelled from the spec: `UdpClientHelper`, not in src/.  The destination and
the attributes given to every source installed from this helper; an attribute
that was never set keeps the library default (`none`). -/
structure UdpClientHelper where
  remoteAddress : Option Ipv4Address
  remotePort : Nat
  maxPackets : Option Nat
  interval : Option ℚ
  packetSize : Option Nat
deriving DecidableEq, Repr

/-- Modelled from the spec: `UdpClientHelper::SetAttribute`, not in src/. -/
def UdpClientHelper.SetAttribute (h : UdpClientHelper) (a : ClientAttribute) (w : World) :
    UdpClientHelper × World :=
  (match a with
    | ClientAttribute.maxPackets n => { h with maxPackets := some n }
    | ClientAttribute.interval t => { h with interval := some t }
    | ClientAttribute.packetSize n => { h with packetSize := some n },
    w.log (Call.udpClientSetAttribute a))

/-- Modelled from the spec: `UdpClientHelper::Install` (`installSources`, one
node), not in src/.  One source application on the node, bound to the helper's
destination. -/
def UdpClientHelper.Install (h : UdpClientHelper) (node : Node) (w : World) :
    ApplicationContainer × World :=
  ([w.apps.length], { w with
    apps := w.apps ++
      [⟨node, AppKind.udpClient h.remoteAddress h.remotePort h.maxPackets h.interval h.packetSize,
        none, none⟩]
    trace := w.trace ++ [Call.udpClientInstall node] })

/-- Modelled from the spec: `ApplicationContainer::Add`, not in src/. -/
def ApplicationContainer.Add (c other : ApplicationContainer) : ApplicationContainer :=
  c ++ other

/-- Set the start time of the applications whose position is listed in `ids`. -/
def startApps (ids : List Nat) (t : ℚ) : List Application → Nat → List Application
  | [], _ => []
  | a :: as, i =>
    (if i ∈ ids then { a with start := some t } else a) :: startApps ids t as (i + 1)

/-- Set the stop time of the applications whose position is listed in `ids`. -/
def stopApps (ids : List Nat) (t : ℚ) : List Application → Nat → List Application
  | [], _ => []
  | a :: as, i =>
    (if i ∈ ids then { a with stop := some t } else a) :: stopApps ids t as (i + 1)

/-- Modelled from the spec: `ApplicationContainer::Start` (`scheduleStart`), not
in src/.  Every application of the container starts at `t`. -/
def ApplicationContainer.Start (c : ApplicationContainer) (t : ℚ) (w : World) : World :=
  { w with apps := startApps c t w.apps 0, trace := w.trace ++ [Call.appsStart c t] }

/-- Modelled from the spec: `ApplicationContainer::Stop` (`scheduleStop`), not in
src/.  Every application of the container stops at `t`. -/
def ApplicationContainer.Stop (c : ApplicationContainer) (t : ℚ) (w : World) : World :=
  { w with apps := stopApps c t w.apps 0, trace := w.trace ++ [Call.appsStop c t] }

/-! ## The scenario driver -/

/-- The scenario knobs of `main` (lines 35-49) and the one value `main` takes
from the MAC/PHY subsystem.

* `verbose`, `tracing`: the two command-line flags.
* `nCsma`, `nWifi`, `CWmin`, `packetSize`: the `const uint32_t` constants.
* `defaultMinCw`: the minimum contention window a freshly installed controller
  has before anything is tuned; it is chosen by the MAC/PHY subsystem, not by
  `main`. -/
structure Config where
  verbose : Bool
  tracing : Bool
  nCsma : Nat
  nWifi : Nat
  CWmin : Nat
  packetSize : Nat
  defaultMinCw : Nat
deriving DecidableEq, Repr

/-- The constants as written in the source (`verbose = true`,
`tracing = false`, `nCsma = 3`, `nWifi = 4`, `CWmin = 63`,
`packetSize = 1500`), with the subsystem's default window of 15. -/
def scenario : Config :=
  { verbose := true, tracing := false, nCsma := 3, nWifi := 4, CWmin := 63,
    packetSize := 1500, defaultMinCw := 15 }

/-- Line 192: `static_cast<double>(packetSize * 8) / 10000000.0`.  The product
is formed in `uint32_t`, then converted; the division is taken as exact. -/
def packetPeriod (packetSize : Nat) : ℚ := ((mulUInt32 packetSize 8 : Nat) : ℚ) / 10000000

/-- Lines 199-202: `for (int i = 0; i < nWifi; ++i)
clientApps.Add(udpClient.Install(wifiStaNodes.Get(i)))`.

The counter `i` is an `int`; the test `i < nWifi` and the argument of `Get`
convert it to `uint32_t`.  `++i` is modelled with two's-complement wrap-around.
The first argument bounds the number of loop tests; the loop gives no result
when the bound is used up. -/
def installClients (udpClient : UdpClientHelper) (wifiStaNodes : NodeContainer) (nWifi : Nat) :
    Nat → Int → ApplicationContainer → World → Option (ApplicationContainer × World)
  | 0, _, _, _ => none
  | fuel + 1, i, clientApps, w =>
    if toUInt32 i < nWifi then
      match NodeContainer.Get wifiStaNodes (toUInt32 i) with
      | none => none
      | some node =>
        let r := UdpClientHelper.Install udpClient node w
        installClients udpClient wifiStaNodes nWifi fuel (wrapInt32 (i + 1))
          (ApplicationContainer.Add clientApps r.1) r.2
    else
      some (clientApps, w)

/-- The local variables of `main` that later statements or the properties below
refer to, together with the engine state at the end of `main`. -/
structure Assembled where
  p2pNodes : NodeContainer
  csmaNodes : NodeContainer
  wifiStaNodes : NodeContainer
  wifiApNode : NodeContainer
  p2pDevices : NetDeviceContainer
  csmaDevices : NetDeviceContainer
  staDevices : NetDeviceContainer
  apDevices : NetDeviceContainer
  txop : Nat
  p2pInterfaces : Ipv4InterfaceContainer
  csmaInterfaces : Ipv4InterfaceContainer
  serverApps : ApplicationContainer
  udpClient : UdpClientHelper
  packetPeriod : ℚ
  clientApps : ApplicationContainer
  world : World
deriving DecidableEq, Repr

/-- The body of `main` (lines 57-219), statement by statement. -/
def main (cfg : Config) : Option Assembled := do
  let w := World.empty
  -- lines 57-61
  let w :=
    if cfg.verbose then
      (w.log (Call.logComponentEnable LogComponent.udpClient)).log
        (Call.logComponentEnable LogComponent.udpServer)
    else w
  -- lines 64-65
  let (p2pNodes, w) := NodeContainer.Create [] 2 w
  -- lines 68-70
  let w := w.log (Call.p2pSetDeviceAttributeDataRate 100000000)
  let w := w.log (Call.p2pSetChannelAttributeDelay 2000)
  -- lines 73-74
  let (p2pDevices, w) := PointToPointHelper.Install p2pNodes w
  -- lines 77-79
  let r ← NodeContainer.Get p2pNodes 1
  let csmaNodes := NodeContainer.Add [] r
  let (csmaNodes, w) := NodeContainer.Create csmaNodes cfg.nCsma w
  -- lines 82-84
  let w := w.log (Call.csmaSetChannelAttributeDataRate 100000000)
  let w := w.log (Call.csmaSetChannelAttributeDelay 6)
  -- lines 87-88
  let (csmaDevices, w) := CsmaHelper.Install csmaNodes w
  -- lines 91-93
  let (wifiStaNodes, w) := NodeContainer.Create [] cfg.nWifi w
  let ap ← NodeContainer.Get p2pNodes 0
  let wifiApNode : NodeContainer := [ap]
  -- lines 96-98
  let w := w.log Call.phySetChannel
  -- lines 103-104
  let w := w.log Call.wifiSetStandard
  -- lines 107-117
  let mac := MacType.staWifiMac
  let w := w.log (Call.macSetType mac)
  let (staDevices, w) := WifiHelper.Install mac cfg.defaultMinCw wifiStaNodes w
  -- lines 120-124
  let mac := MacType.apWifiMac
  let w := w.log (Call.macSetType mac)
  let (apDevices, w) := WifiHelper.Install mac cfg.defaultMinCw wifiApNode w
  -- lines 127-129
  let dev ← NetDeviceContainer.Get staDevices 0
  let wifiDev ← DynamicCastWifiNetDevice dev
  let wifiMac := WifiNetDevice.GetMac wifiDev
  -- lines 132-134
  let txop ← WifiMac.GetTxop wifiMac w
  -- line 137
  let w := Txop.SetMinCw txop cfg.CWmin w
  -- lines 140-156
  let mobility : GridPositionAllocator :=
    { minX := 0, minY := 0, deltaX := 5, deltaY := 10, gridWidth := 3,
      layoutType := LayoutType.rowFirst, current := 0 }
  let w := w.log Call.setPositionAllocator
  let w := w.log Call.setMobilityModel
  let (mobility, w) := MobilityHelper.Install mobility wifiStaNodes w
  let (_, w) := MobilityHelper.Install mobility wifiApNode w
  -- lines 159-162
  let w := InternetStackHelper.Install csmaNodes w
  let w := InternetStackHelper.Install wifiApNode w
  let w := InternetStackHelper.Install wifiStaNodes w
  -- lines 167-169
  let (address, w) := Ipv4AddressHelper.SetBase (ipv4 10 1 1 0) (ipv4 255 255 255 0) w
  let (p2pInterfaces, _, w) := Ipv4AddressHelper.Assign address p2pDevices w
  -- lines 172-174
  let (address, w) := Ipv4AddressHelper.SetBase (ipv4 10 1 2 0) (ipv4 255 255 255 0) w
  let (csmaInterfaces, _, w) := Ipv4AddressHelper.Assign address csmaDevices w
  -- lines 177-179
  let (address, w) := Ipv4AddressHelper.SetBase (ipv4 10 1 3 0) (ipv4 255 255 255 0) w
  let (_, address, w) := Ipv4AddressHelper.Assign address staDevices w
  let (_, _, w) := Ipv4AddressHelper.Assign address apDevices w
  -- lines 182-185
  let sinkNode ← NodeContainer.Get csmaNodes cfg.nCsma
  let (serverApps, w) := UdpServerHelper.Install 9 sinkNode w
  let w := ApplicationContainer.Start serverApps 1 w
  let w := ApplicationContainer.Stop serverApps 31 w
  -- lines 188-189
  let remote ← Ipv4InterfaceContainer.GetAddress csmaInterfaces cfg.nCsma
  let udpClient : UdpClientHelper :=
    { remoteAddress := some remote, remotePort := 9, maxPackets := none, interval := none,
      packetSize := none }
  let (udpClient, w) := UdpClientHelper.SetAttribute udpClient (ClientAttribute.maxPackets 0) w
  -- lines 192-195
  let packetPeriod := packetPeriod cfg.packetSize
  let (udpClient, w) :=
    UdpClientHelper.SetAttribute udpClient (ClientAttribute.interval packetPeriod) w
  let (udpClient, w) :=
    UdpClientHelper.SetAttribute udpClient (ClientAttribute.packetSize cfg.packetSize) w
  -- lines 198-202 (the loop test is evaluated `nWifi + 1` times)
  let (clientApps, w) ← installClients udpClient wifiStaNodes cfg.nWifi (cfg.nWifi + 1) 0 [] w
  -- lines 204-205
  let w := ApplicationContainer.Start clientApps 2 w
  let w := ApplicationContainer.Stop clientApps 22 w
  -- lines 207-208
  let w := w.log Call.populateRoutingTables
  let w := w.log (Call.simulatorStop 31)
  -- lines 210-216
  let w ←
    if cfg.tracing then do
      let w := w.log Call.setPcapDataLinkType
      let w := w.log Call.p2pEnablePcapAll
      let d ← NetDeviceContainer.Get apDevices 0
      let w := w.log (Call.phyEnablePcap d)
      let d ← NetDeviceContainer.Get csmaDevices 0
      let w := w.log (Call.csmaEnablePcap d)
      pure w
    else pure w
  -- lines 218-219
  let w := w.log Call.simulatorRun
  let w := w.log Call.simulatorDestroy
  pure
    { p2pNodes := p2pNodes, csmaNodes := csmaNodes, wifiStaNodes := wifiStaNodes,
      wifiApNode := wifiApNode, p2pDevices := p2pDevices, csmaDevices := csmaDevices,
      staDevices := staDevices, apDevices := apDevices, txop := txop,
      p2pInterfaces := p2pInterfaces, csmaInterfaces := csmaInterfaces,
      serverApps := serverApps, udpClient := udpClient, packetPeriod := packetPeriod,
      clientApps := clientApps, world := w }


/-! ## Observations on an assembled scenario -/

/-- The six assembly steps the scenario driver sequences. -/
inductive Step where
  | links
  | addressing
  | wirelessCell
  | contentionTuning
  | placement
  | traffic
deriving DecidableEq, Repr

/-- The assembly step a library call belongs to.  Node creation, logging, the
protocol-stack installation, routing population, the horizon, capture, run and
teardown belong to none of the six steps. -/
def Call.step : Call → Option Step
  | Call.p2pSetDeviceAttributeDataRate _ => some Step.links
  | Call.p2pSetChannelAttributeDelay _ => some Step.links
  | Call.p2pInstall _ => some Step.links
  | Call.csmaSetChannelAttributeDataRate _ => some Step.links
  | Call.csmaSetChannelAttributeDelay _ => some Step.links
  | Call.csmaInstall _ => some Step.links
  | Call.phySetChannel => some Step.wirelessCell
  | Call.wifiSetStandard => some Step.wirelessCell
  | Call.macSetType _ => some Step.wirelessCell
  | Call.wifiInstall _ _ => some Step.wirelessCell
  | Call.setMinCw _ _ => some Step.contentionTuning
  | Call.setPositionAllocator => some Step.placement
  | Call.setMobilityModel => some Step.placement
  | Call.mobilityInstall _ => some Step.placement
  | Call.setBase _ _ => some Step.addressing
  | Call.assign _ => some Step.addressing
  | Call.udpServerInstall _ _ => some Step.traffic
  | Call.udpClientSetAttribute _ => some Step.traffic
  | Call.udpClientInstall _ => some Step.traffic
  | Call.appsStart _ _ => some Step.traffic
  | Call.appsStop _ _ => some Step.traffic
  | _ => none

/-- Merge each run of equal neighbours into one element. -/
def collapse : List Step → List Step
  | [] => []
  | [s] => [s]
  | s :: t :: rest => if s = t then collapse (t :: rest) else s :: collapse (t :: rest)

/-- The assembly steps of a trace in the order in which they are performed. -/
def stepSequence (t : List Call) : List Step := collapse (t.filterMap Call.step)

/-- Every call satisfying `p` occurs strictly before every call satisfying `q`:
from a `q`-call on, no `p`-call occurs. -/
def allBefore (p q : Call → Bool) : List Call → Bool
  | [] => true
  | c :: rest => (!(q c) || (!(p c) && rest.all (fun d => !(p d)))) && allBefore p q rest

/-- The call belongs to the given assembly step. -/
def Call.inStep (s : Step) (c : Call) : Bool := c.step == some s

/-- The call tunes a minimum contention window. -/
def Call.isSetMinCw : Call → Bool
  | Call.setMinCw _ _ => true
  | _ => false

/-- The call is the routing-table population. -/
def Call.isPopulate : Call → Bool
  | Call.populateRoutingTables => true
  | _ => false

/-- The call triggers the simulation run. -/
def Call.isRun : Call → Bool
  | Call.simulatorRun => true
  | _ => false

/-- Calls that build a link or a wireless cell (creating interfaces) or assign
addresses to interfaces. -/
def Call.buildsTopology : Call → Bool
  | Call.p2pInstall _ => true
  | Call.csmaInstall _ => true
  | Call.wifiInstall _ _ => true
  | Call.setBase _ _ => true
  | Call.assign _ => true
  | _ => false

/-- The devices handed to `Assign` calls of a trace. -/
def assignedDevices : List Call → List NetDevice
  | [] => []
  | Call.assign ds :: rest => ds ++ assignedDevices rest
  | _ :: rest => assignedDevices rest

/-- The horizons given to `Simulator::Stop` in a trace. -/
def horizons : List Call → List ℚ
  | [] => []
  | Call.simulatorStop t :: rest => t :: horizons rest
  | _ :: rest => horizons rest

/-- The application is a sink (UDP server). -/
def Application.isSink (a : Application) : Bool :=
  match a.kind with
  | AppKind.udpServer _ => true
  | _ => false

/-- The application is a source (UDP client). -/
def Application.isSource (a : Application) : Bool :=
  match a.kind with
  | AppKind.udpClient _ _ _ _ _ => true
  | _ => false

/-- The send interval a source application was installed with. -/
def Application.interval (a : Application) : Option ℚ :=
  match a.kind with
  | AppKind.udpClient _ _ _ iv _ => iv
  | _ => none

/-- The address lies in the range given by a network prefix and its mask. -/
def inRange (network mask addr : Ipv4Address) : Bool := (addr &&& mask) == network

/-- The host number of an address under a `/24` mask. -/
def hostNumber (addr : Ipv4Address) : Nat := addr % 256

theorem find_tuned (l : List WifiMac) (t v : Nat)
    (h : l.any (fun m => m.device == t) = true) :
    ((l.map (fun m => if m.device = t then { m with minCw := v } else m)).find?
      (fun m => m.device == t)).map WifiMac.minCw = some v := by
  induction l with
  | nil => simp at h
  | cons m l ih =>
    by_cases hm : m.device = t
    · simp [hm]
    · have h' : l.any (fun m => m.device == t) = true := by
        simpa [hm] using h
      have hb : (m.device == t) = false := by simp [hm]
      rw [List.map_cons, if_neg hm, List.find?_cons, hb]
      exact ih h'

/-- Reading the minimum contention window back from the handle it was just set
on yields the value set. -/
theorem getMinCw_setMinCw (w : World) (t v : Nat) (h : WifiMac.GetTxop t w = some t) :
    Txop.GetMinCw t (Txop.SetMinCw t v w) = some v := by
  unfold WifiMac.GetTxop at h
  unfold Txop.GetMinCw Txop.SetMinCw
  by_cases hany : w.macs.any (fun m => m.device == t) = true
  · exact find_tuned w.macs t v hany
  · simp [hany] at h

/-- The handles involved in the contention-window tuning, for an arbitrary
default window `d`. -/
theorem main_tuning (d : Nat) :
    (main { scenario with defaultMinCw := d }).map
        (fun a => (a.txop, a.staDevices, a.apDevices, a.wifiStaNodes, a.wifiApNode,
          a.world.macs, a.world.trace.filter Call.isSetMinCw)) =
      some (6,
        [⟨6, 5, DeviceKind.wifiSta⟩, ⟨7, 6, DeviceKind.wifiSta⟩, ⟨8, 7, DeviceKind.wifiSta⟩,
          ⟨9, 8, DeviceKind.wifiSta⟩],
        [⟨10, 0, DeviceKind.wifiAp⟩], [5, 6, 7, 8], [0],
        [⟨6, MacType.staWifiMac, 63⟩, ⟨7, MacType.staWifiMac, d⟩, ⟨8, MacType.staWifiMac, d⟩,
          ⟨9, MacType.staWifiMac, d⟩, ⟨10, MacType.apWifiMac, d⟩],
        [Call.setMinCw 6 63]) := by
  simp [main, scenario, NodeContainer.Create, NodeContainer.Add, NodeContainer.Get, World.log,
    World.empty, PointToPointHelper.Install, CsmaHelper.Install, WifiHelper.Install, installOn,
    NetDeviceContainer.Get, DynamicCastWifiNetDevice, WifiNetDevice.GetMac, WifiMac.GetTxop,
    Txop.SetMinCw, MobilityHelper.Install, placeNodes, GridPositionAllocator.GetNext,
    InternetStackHelper.Install, Ipv4AddressHelper.SetBase, Ipv4AddressHelper.Assign, assignFrom,
    UdpServerHelper.Install, UdpClientHelper.Install, UdpClientHelper.SetAttribute,
    ApplicationContainer.Start, ApplicationContainer.Stop, ApplicationContainer.Add,
    Ipv4InterfaceContainer.GetAddress, installClients, List.range', MacType.deviceKind, toUInt32,
    wrapInt32, Call.isSetMinCw]

/-! ## Contention-window tuning (lines 126-137) -/

/-- Claim C1, as stated, fails on the scenario of the source: the controller
handed to `SetMinCw` is not the controller of the access-point device, and the
access point's minimum contention window read back at the end of assembly is
not `CWmin`. -/
theorem c1_tuned_controller_is_not_access_point :
    ∃ a ap, main scenario = some a ∧ NetDeviceContainer.Get a.apDevices 0 = some ap ∧
      a.wifiApNode = [ap.node] ∧
      a.txop ≠ WifiNetDevice.GetMac ap ∧
      Txop.GetMinCw (WifiNetDevice.GetMac ap) a.world ≠ some scenario.CWmin :=
  ⟨_, _, rfl, rfl, by decide, by decide, by decide⟩

/-- Claim C1 (amended): in the assembled scenario the one controller whose
minimum contention window is set to `CWmin = 63` is the controller of the first
station device (`staDevices.Get(0)`), not the access point's; the value read
back from that station controller is `CWmin`, while the access point's
controller keeps the subsystem's default, whatever that default is.  On that
handle a set followed by a read returns the value set. -/
theorem c1_tuned_controller_is_first_station (d : Nat) :
    ∃ a sta ap, main { scenario with defaultMinCw := d } = some a ∧
      NetDeviceContainer.Get a.staDevices 0 = some sta ∧
      NetDeviceContainer.Get a.apDevices 0 = some ap ∧
      sta.kind = DeviceKind.wifiSta ∧ ap.kind = DeviceKind.wifiAp ∧
      NodeContainer.Get a.wifiStaNodes 0 = some sta.node ∧ a.wifiApNode = [ap.node] ∧
      a.txop = WifiNetDevice.GetMac sta ∧ a.txop ≠ WifiNetDevice.GetMac ap ∧
      a.world.trace.filter Call.isSetMinCw = [Call.setMinCw a.txop 63] ∧
      Txop.GetMinCw a.txop a.world = some 63 ∧
      Txop.GetMinCw (WifiNetDevice.GetMac ap) a.world = some d ∧
      (∀ w v, WifiMac.GetTxop a.txop w = some a.txop →
        Txop.GetMinCw a.txop (Txop.SetMinCw a.txop v w) = some v) := by
  have h := main_tuning d
  obtain ⟨a, ha⟩ : ∃ a, main { scenario with defaultMinCw := d } = some a := by
    cases hm : main { scenario with defaultMinCw := d } with
    | none => rw [hm] at h; exact absurd h (by simp)
    | some a => exact ⟨a, rfl⟩
  rw [ha] at h
  simp only [Option.map_some', Option.some.injEq, Prod.mk.injEq] at h
  obtain ⟨h1, h2, h3, h4, h5, h6, h7⟩ := h
  refine ⟨a, ⟨6, 5, DeviceKind.wifiSta⟩, ⟨10, 0, DeviceKind.wifiAp⟩, ha, ?_⟩
  refine ⟨?_, ?_, ?_, ?_, ?_, ?_, ?_, ?_, ?_, ?_, ?_,
    fun w v hw => getMinCw_setMinCw w a.txop v hw⟩ <;>
  simp [h1, h2, h3, h4, h5, h6, h7, NetDeviceContainer.Get, NodeContainer.Get,
    WifiNetDevice.GetMac, Txop.GetMinCw]

/-! ## Order of the assembly steps (lines 63-205) -/

/-- Claim C2, as stated, fails on the scenario of the source: the assembly steps
are not performed in the order links, addressing, wireless cell, contention
tuning, placement, traffic, and the address-assignment calls do not precede the
wireless-cell installation nor the placement. -/
theorem c2_addressing_is_not_second :
    ∃ a, main scenario = some a ∧
      stepSequence a.world.trace ≠
        [Step.links, Step.addressing, Step.wirelessCell, Step.contentionTuning,
          Step.placement, Step.traffic] ∧
      allBefore (Call.inStep Step.addressing) (Call.inStep Step.wirelessCell) a.world.trace
        = false ∧
      allBefore (Call.inStep Step.addressing) (Call.inStep Step.placement) a.world.trace
        = false :=
  ⟨_, rfl, by decide, by decide, by decide⟩

/-- Claim C2 (amended): the assembly steps performed by `main` are, in this
order: link construction (point-to-point, then shared segment), wireless cell
installation, contention-window tuning, placement, address assignment, traffic
installation; in particular every address-assignment call occurs after the
wireless cell is installed and after placement, and before any traffic
installation.  This holds for both values of the two command-line flags. -/
theorem c2_assembly_order (verbose tracing : Bool) :
    ∃ a, main { scenario with verbose := verbose, tracing := tracing } = some a ∧
      stepSequence a.world.trace =
        [Step.links, Step.wirelessCell, Step.contentionTuning, Step.placement,
          Step.addressing, Step.traffic] ∧
      allBefore (Call.inStep Step.links) (Call.inStep Step.wirelessCell) a.world.trace = true ∧
      allBefore (Call.inStep Step.wirelessCell) (Call.inStep Step.addressing) a.world.trace
        = true ∧
      allBefore (Call.inStep Step.contentionTuning) (Call.inStep Step.addressing) a.world.trace
        = true ∧
      allBefore (Call.inStep Step.placement) (Call.inStep Step.addressing) a.world.trace
        = true ∧
      allBefore (Call.inStep Step.addressing) (Call.inStep Step.traffic) a.world.trace = true := by
  cases verbose <;> cases tracing <;> exact ⟨_, rfl, by decide, by decide, by decide, by decide,
    by decide, by decide⟩

/-! ## The send interval (lines 191-195) -/

/-- Claim C5: with `SetBase` resetting the host counter to 1 and `Assign` giving
the next host number to each device in input order, `main` assigns
`10.1.1.1-2` to the two point-to-point interfaces, `10.1.2.1-4` to the four
shared-segment interfaces and `10.1.3.1-5` to the four station interfaces
followed by the access-point interface (two consecutive `Assign` calls without
an intervening `SetBase`).  The three `/24` ranges are pairwise disjoint, every
address lies in the range of its segment, and the 11 interfaces are pairwise
distinct and receive pairwise distinct addresses. -/
theorem c5_addresses :
    (∃ a, main scenario = some a ∧
      a.world.trace.filter (Call.inStep Step.addressing) =
        [Call.setBase (ipv4 10 1 1 0) (ipv4 255 255 255 0), Call.assign a.p2pDevices,
          Call.setBase (ipv4 10 1 2 0) (ipv4 255 255 255 0), Call.assign a.csmaDevices,
          Call.setBase (ipv4 10 1 3 0) (ipv4 255 255 255 0), Call.assign a.staDevices,
          Call.assign a.apDevices] ∧
      a.world.addresses.map Prod.fst =
        a.p2pDevices ++ a.csmaDevices ++ a.staDevices ++ a.apDevices ∧
      a.world.addresses.map Prod.fst = a.world.devices ∧
      a.p2pDevices.length = 2 ∧ a.csmaDevices.length = 4 ∧ a.staDevices.length = 4 ∧
      a.apDevices.length = 1 ∧
      a.world.addresses.length = 11 ∧
      (a.world.addresses.map Prod.fst).Nodup ∧
      (a.world.addresses.map Prod.snd).Nodup ∧
      a.world.addresses.map Prod.snd =
        [ipv4 10 1 1 1, ipv4 10 1 1 2,
          ipv4 10 1 2 1, ipv4 10 1 2 2, ipv4 10 1 2 3, ipv4 10 1 2 4,
          ipv4 10 1 3 1, ipv4 10 1 3 2, ipv4 10 1 3 3, ipv4 10 1 3 4, ipv4 10 1 3 5] ∧
      a.p2pInterfaces = a.world.addresses.take 2 ∧
      a.csmaInterfaces = (a.world.addresses.drop 2).take 4 ∧
      (∀ p ∈ a.world.addresses, p.1.kind = DeviceKind.pointToPoint →
        inRange (ipv4 10 1 1 0) (ipv4 255 255 255 0) p.2 = true) ∧
      (∀ p ∈ a.world.addresses, p.1.kind = DeviceKind.csma →
        inRange (ipv4 10 1 2 0) (ipv4 255 255 255 0) p.2 = true) ∧
      (∀ p ∈ a.world.addresses, p.1.kind = DeviceKind.wifiSta ∨ p.1.kind = DeviceKind.wifiAp →
        inRange (ipv4 10 1 3 0) (ipv4 255 255 255 0) p.2 = true) ∧
      a.world.addresses.map (fun p => hostNumber p.2) = [1, 2, 1, 2, 3, 4, 1, 2, 3, 4, 5]) ∧
    (∀ x, ¬ (inRange (ipv4 10 1 1 0) (ipv4 255 255 255 0) x = true ∧
      inRange (ipv4 10 1 2 0) (ipv4 255 255 255 0) x = true)) ∧
    (∀ x, ¬ (inRange (ipv4 10 1 1 0) (ipv4 255 255 255 0) x = true ∧
      inRange (ipv4 10 1 3 0) (ipv4 255 255 255 0) x = true)) ∧
    (∀ x, ¬ (inRange (ipv4 10 1 2 0) (ipv4 255 255 255 0) x = true ∧
      inRange (ipv4 10 1 3 0) (ipv4 255 255 255 0) x = true)) := by
  have disjoint : ∀ n1 n2 m : Nat, n1 ≠ n2 →
      ∀ x, ¬ (inRange n1 m x = true ∧ inRange n2 m x = true) := by
    intro n1 n2 m hne x hx
    simp only [inRange, beq_iff_eq] at hx
    exact hne (hx.1.symm.trans hx.2)
  refine ⟨⟨_, rfl, ?_⟩, disjoint _ _ _ (by decide), disjoint _ _ _ (by decide),
    disjoint _ _ _ (by decide)⟩
  repeat' apply And.intro
  all_goals decide

/-! ## Node and application counts (lines 63-93, 181-205) -/

/-- Claim C7: in the trace of calls issued by `main`, for both values of the two
command-line flags, routing-table population is invoked exactly once; that
invocation comes strictly after every call that builds a link or wireless cell
or assigns addresses, at a point where each of the 11 interfaces of the 9 nodes
has been handed to an `Assign` call, and strictly before the single
`Simulator::Run`. -/
theorem c7_routing_population (verbose tracing : Bool) :
    ∃ a, main { scenario with verbose := verbose, tracing := tracing } = some a ∧
      a.world.trace.count Call.populateRoutingTables = 1 ∧
      a.world.trace.count Call.simulatorRun = 1 ∧
      allBefore Call.buildsTopology Call.isPopulate a.world.trace = true ∧
      allBefore Call.isPopulate Call.isRun a.world.trace = true ∧
      a.world.nodeCount = 9 ∧ a.world.devices.length = 11 ∧
      (∀ n, n < 9 → ∃ d ∈ a.world.devices, d.node = n) ∧
      (∀ d ∈ a.world.devices, d.node < 9 ∧
        d ∈ assignedDevices (a.world.trace.takeWhile (fun c => !c.isPopulate))) ∧
      (∀ d ∈ a.world.devices, ∃ p ∈ a.world.addresses, p.1 = d) := by
  cases verbose <;> cases tracing <;>
  · refine ⟨_, rfl, ?_⟩
    repeat' apply And.intro
    all_goals decide

/-! ## Lifecycle windows (lines 182-185, 204-208) -/

/-- Window containment read off the list of configured windows. -/
theorem windows_contained (apps : List Application) (hs : List ℚ)
    (h : apps.map (fun x => (x.isSink, x.isSource, x.start, x.stop)) =
      [(true, false, some 1, some 31), (false, true, some 2, some 22),
        (false, true, some 2, some 22), (false, true, some 2, some 22),
        (false, true, some 2, some 22)])
    (hh : hs = [31]) :
    ∀ sink ∈ apps, sink.isSink = true → ∀ src ∈ apps, src.isSource = true →
      ∀ horizon ∈ hs, ∃ s0 s1 c0 c1,
        sink.start = some s0 ∧ sink.stop = some s1 ∧ src.start = some c0 ∧ src.stop = some c1 ∧
        s0 ≤ c0 ∧ c0 ≤ c1 ∧ c1 ≤ s1 ∧ s1 ≤ horizon := by
  intro sink hsink hs1 src hsrc hs2 horizon hhor
  have m1 := List.mem_map_of_mem (fun x => (x.isSink, x.isSource, x.start, x.stop)) hsink
  have m2 := List.mem_map_of_mem (fun x => (x.isSink, x.isSource, x.start, x.stop)) hsrc
  rw [h] at m1 m2
  subst hh
  simp only [List.mem_singleton] at hhor
  subst hhor
  simp only [List.mem_cons, Prod.mk.injEq, List.mem_nil_iff, or_false, hs1, hs2] at m1 m2
  have e1 : sink.start = some 1 ∧ sink.stop = some 31 := by
    rcases m1 with m | m | m | m | m <;> simp_all
  have e2 : src.start = some 2 ∧ src.stop = some 22 := by
    rcases m2 with m | m | m | m | m <;> simp_all
  exact ⟨1, 31, 2, 22, e1.1, e1.2, e2.1, e2.2, by norm_num, by norm_num, by norm_num, le_refl _⟩

/-- Claim C8: the windows configured by `main` satisfy
`sink.start ≤ source.start ≤ source.stop ≤ sink.stop ≤ horizon` for every
installed source application: the sink window is `[1, 31]`, each of the four
source windows is `[2, 22]`, and the simulation stop time is `31`.  This holds
for both values of the two command-line flags. -/
theorem c8_window_containment (verbose tracing : Bool) :
    ∃ a, main { scenario with verbose := verbose, tracing := tracing } = some a ∧
      (a.world.apps.filter Application.isSink).map (fun x => (x.start, x.stop)) =
        [(some 1, some 31)] ∧
      (a.world.apps.filter Application.isSource).map (fun x => (x.start, x.stop)) =
        List.replicate 4 (some 2, some 22) ∧
      horizons a.world.trace = [31] ∧
      ∀ sink ∈ a.world.apps, sink.isSink = true → ∀ src ∈ a.world.apps, src.isSource = true →
        ∀ horizon ∈ horizons a.world.trace, ∃ s0 s1 c0 c1,
          sink.start = some s0 ∧ sink.stop = some s1 ∧
          src.start = some c0 ∧ src.stop = some c1 ∧
          s0 ≤ c0 ∧ c0 ≤ c1 ∧ c1 ≤ s1 ∧ s1 ≤ horizon := by
  cases verbose <;> cases tracing <;>
    exact ⟨_, rfl, by decide, by decide, by decide, windows_contained _ _ rfl rfl⟩

/-! ## Placement (lines 139-156) -/

end MyFirst
